import Mathlib

/-!
A shallow embedding of the event handlers in
`mysqloperator/controller/innodbcluster/operator_cluster.py` (the event
dispatch layer of the MySQL InnoDB Cluster operator), together with proofs
about their behaviour.

Each Python handler is translated into a pure Lean function.  Side effects
are made explicit:

* calls to the platform API that create dependent objects are collected in a
  `List DepObject` (in call order);
* diagnostics recorded on the cluster resource (`cluster.error`,
  `cluster.warn`, `cluster.info`) are collected in a `List Diag`;
* raised exceptions become an `Option`/`Except` error value;
* mutex acquisition/release, controller hook invocations and platform
  mutations performed by a handler are collected in an ordered
  `List TraceEv` trace;
* the process-local ephemeral pod state (`g_ephemeral_pod_state`, keyed by
  pod and the string `mysql-restarts`) is threaded explicitly as an
  `Option Nat` (the last recorded restart count for the pod at hand).

External lookups (`cluster.get_stateful_set`, `pod.get_cluster`, probe
results, hook outcomes, ...) are inputs to the handler functions, mirroring
the fact that in the source they are answers from the Kubernetes API or
from the `ClusterController` (which lives in another file).
-/

namespace MySQLOperator

/-- The dependent platform objects handled by `on_innodbcluster_create`,
one constructor per creation step of the handler, in no particular order
here (the order of the steps is `createSteps` below). -/
inductive DepObject
  | initconf
  | clusterSecret
  | routerSecret
  | clusterService
  | statefulSet
  | disruptionBudget
  | routerService
  | routerDeployment
  | backupSecret
deriving DecidableEq, Repr

/-- Outcome of a platform existence lookup (`cluster.get_initconf`, ...):
the object is returned, a 404 `ApiException` is raised, or some other
`ApiException` is raised. -/
inductive Lookup
  | found
  | notFound
  | apiError
deriving DecidableEq, Repr

/-- Mirror of the inner `ignore_404` helper of `on_innodbcluster_create`:
a 404 is swallowed and becomes `none` ("must create"), any other API
failure propagates. -/
def ignore_404 : Lookup → Except Unit (Option Unit)
  | .found => .ok (some ())
  | .notFound => .ok none
  | .apiError => .error ()

/-- The cluster diagnostic status values used by the dispatch layer
(`diagnose.ClusterDiagStatus`). -/
inductive DiagStatus
  | PENDING
  | ONLINE
  | OFFLINE
  | UNKNOWN
deriving DecidableEq, Repr

/-- The `status.cluster` block written by `cluster.set_status` at the end of
`on_innodbcluster_create`.  `lastProbeTime` is a wall-clock timestamp in the
source (`utils.isotime()`) and is outside this functional model. -/
structure ClusterStatusBlock where
  status : DiagStatus
  onlineInstances : Nat
deriving DecidableEq, Repr

/-- Diagnostics recorded on the cluster resource by the create handler
(`cluster.error` / `cluster.warn` / `cluster.info` with the given reason). -/
inductive Diag
  | invalidArgument
  | createResourceFailed
  | resourcesCreated
deriving DecidableEq, Repr

/-- Errors raised by `on_innodbcluster_create`: a `kopf.TemporaryError`
(retryable) for an invalid spec, or a re-raised API exception from a
creation step. -/
inductive CreateErr
  | temporaryError
  | apiError
deriving DecidableEq, Repr

/-- The slice of the `InnoDBCluster` resource state observed and produced by
the create handler. -/
structure ClusterState where
  ready : Bool
  createTime : Option Nat
  objects : List DepObject
  operatorVersion : Option String
  status : Option ClusterStatusBlock
deriving DecidableEq, Repr

/-- The parsed spec fields the create handler branches on. -/
structure ICSpec where
  instances : Nat
  routerInstances : Nat
deriving DecidableEq, Repr

/-- Input resource body for `on_innodbcluster_create`: whether
`parse_spec` + `parsed_spec.validate` succeed, and the parsed spec. -/
structure ClusterInput where
  specValid : Bool
  spec : ICSpec
deriving DecidableEq, Repr

/-- The operator version tag stamped on the resource
(`config.DEFAULT_OPERATOR_VERSION_TAG`; its concrete value lives in
`config.py`, only its identity matters here). -/
def DEFAULT_OPERATOR_VERSION_TAG : String := "operator-version-tag"

/-- The nine creation steps of `on_innodbcluster_create` in source order.
The `Bool` is the extra guard between the existence check and the create
call: always true except for the router deployment, which is only created
when `spec.router.instances > 0`. -/
def createSteps (spec : ICSpec) : List (DepObject × Bool) :=
  [(.initconf, true),
   (.clusterSecret, true),
   (.routerSecret, true),
   (.clusterService, true),
   (.statefulSet, true),
   (.disruptionBudget, true),
   (.routerService, true),
   (.routerDeployment, decide (spec.routerInstances > 0)),
   (.backupSecret, true)]

/-- Run the creation steps left to right against the lookup oracle `lk`.
Returns the list of objects actually created (in order) and whether all
steps completed (false = an `ApiException` other than 404 escaped
`ignore_404` and aborted the sequence). -/
def runSteps (lk : DepObject → Lookup) : List (DepObject × Bool) → List DepObject × Bool
  | [] => ([], true)
  | (o, cond) :: rest =>
    match ignore_404 (lk o) with
    | .error _ => ([], false)
    | .ok (some _) => runSteps lk rest
    | .ok none =>
      if cond then
        let r := runSteps lk rest
        (o :: r.1, r.2)
      else
        runSteps lk rest

/-- Full outcome of one invocation of the create handler. -/
structure CreateResult where
  diags : List Diag
  created : List DepObject
  state : ClusterState
  err : Option CreateErr
deriving DecidableEq, Repr

/-- Shallow embedding of `on_innodbcluster_create`.

* An invalid spec records an `InvalidArgument` diagnostic and raises a
  `kopf.TemporaryError`, touching nothing else.
* If `cluster.ready` the whole creation block is skipped.
* Otherwise the nine check-then-create steps run in order; any non-404 API
  failure records a `CreateResourceFailed` warning and re-raises (objects
  created before the failure persist).
* On completion the operator version tag is stamped, a `ResourcesCreated`
  info diagnostic is recorded and the status is set to PENDING with
  0 online instances. -/
def on_innodbcluster_create (c : ClusterInput) (lk : DepObject → Lookup)
    (s : ClusterState) : CreateResult :=
  if !c.specValid then
    { diags := [.invalidArgument], created := [], state := s,
      err := some .temporaryError }
  else if s.ready then
    { diags := [], created := [], state := s, err := none }
  else
    let r := runSteps lk (createSteps c.spec)
    let s1 := { s with objects := s.objects ++ r.1 }
    if r.2 then
      { diags := [.resourcesCreated],
        created := r.1,
        state := { s1 with
                    operatorVersion := some DEFAULT_OPERATOR_VERSION_TAG,
                    status := some { status := .PENDING, onlineInstances := 0 } },
        err := none }
    else
      { diags := [.createResourceFailed], created := r.1, state := s1,
        err := some .apiError }

/-- The existence-lookup oracle induced by a cluster state: an object is
found exactly when it is among the state's existing objects. -/
def lookupOf (s : ClusterState) : DepObject → Lookup :=
  fun o => if o ∈ s.objects then .found else .notFound

/-!  Traces of handler side effects. -/

/-- A mutation of the cluster resource's status or of one of its dependent
platform objects performed by a handler. -/
inductive Mutation
  | stsReplicas (n : Nat)
  | stsMysqlImage
  | stsOperatorImage
  | stsPullPolicy
  | routerImage
  | routerPullPolicy
  | routerReplicas (n : Nat)
  | backupSchedules
  | firstPodBootstrap
  | lastPodTeardown
deriving DecidableEq, Repr

/-- A `ClusterController` hook invoked by the dispatch layer. -/
inductive Hook
  | serverVersionChange
  | serverImageChange
  | podCreated
  | podRestarted
  | podDeleted
  | groupViewChange
deriving DecidableEq, Repr

/-- One observable step of a handler body, in execution order:
logging, mutex acquire/release (`with ClusterMutex(...)`), sleeping in the
manual retry loop, mutating a platform object, invoking a controller hook,
probing cluster status (`probe_status_if_needed`, which may refresh the
persisted status), starting the group monitor, updating the process-local
ephemeral pod state, or removing an orphaned pod's finalizer. -/
inductive TraceEv
  | log
  | acquire
  | release
  | sleep (d : Nat)
  | mutate (m : Mutation)
  | hook (h : Hook)
  | probe
  | startMonitor
  | ephemeralSet
  | removeFinalizer
deriving DecidableEq, Repr

/-- Whether a trace event mutates the cluster's resource status or its
dependent platform objects.  Controller hooks and the status probe count as
mutating (they act on the cluster through the controller); logging, mutex
operations, sleeping, monitor start, the process-local ephemeral-state
update and the orphan-pod finalizer removal (which touches a pod that has
no owning cluster) do not. -/
def isClusterMutation : TraceEv → Bool
  | .mutate _ => true
  | .hook _ => true
  | .probe => true
  | _ => false

/-- Scan a trace keeping track of the mutex depth (`d`), checking that
every cluster mutation happens at positive depth. -/
def lockedFrom : Nat → List TraceEv → Bool
  | _, [] => true
  | d, .acquire :: r => lockedFrom (d + 1) r
  | d, .release :: r => lockedFrom (d - 1) r
  | d, ev :: r => (!isClusterMutation ev || decide (0 < d)) && lockedFrom d r

/-- Every cluster mutation in the trace happens while the mutex is held. -/
def mutationsLocked (tr : List TraceEv) : Bool :=
  lockedFrom 0 tr

/-- No cluster mutation occurs in the trace before the first invocation of
hook `h` (vacuously true when the trace contains no mutation at all). -/
def hookPrecedes (h : Hook) : List TraceEv → Bool
  | [] => true
  | ev :: rest =>
    if ev = TraceEv.hook h then true
    else if isClusterMutation ev then false
    else hookPrecedes h rest

/-- Number of invocations of hook `h` in a trace. -/
def countHook (h : Hook) : List TraceEv → Nat
  | [] => 0
  | ev :: rest =>
    (if ev = TraceEv.hook h then 1 else 0) + countHook h rest

/-!  Spec-field change handlers. -/

/-- The cluster-side observations common to every `@kopf.on.field` handler:
whether `cluster.ready` holds, the cluster's create time
(`cluster.get_create_time()`), whether `cluster.get_stateful_set()` /
`cluster.get_router_deployment()` return an object, and whether re-parsing
and validating the spec succeeds. -/
structure FieldInput where
  ready : Bool
  createTime : Option Nat
  stsExists : Bool
  routerDeployExists : Bool
  specOk : Bool
deriving DecidableEq, Repr

/-- Errors raised by the field handlers that invoke no controller hook:
a `kopf.TemporaryError` with its requested delay, or a propagated spec
parse/validation error. -/
inductive SpecFieldErr
  | temporary (delay : Nat)
  | specError
deriving DecidableEq, Repr

/-- Errors raised by the version/image field handlers, which additionally
re-raise (unmodified) any error `e : E` coming out of the controller
pre-change hook. -/
inductive FieldErr (E : Type)
  | temporary (delay : Nat)
  | specError
  | hookError (e : E)
deriving DecidableEq, Repr

/-- Shallow embedding of `on_innodbcluster_field_instances`: ignore (log
only) while the cluster is not ready; otherwise, if the stateful set exists
and the value changed, validate the spec and patch
`StatefulSet.spec.replicas` to the new value. -/
def on_innodbcluster_field_instances (old new : Nat) (inp : FieldInput) :
    List TraceEv × Option SpecFieldErr :=
  if !inp.ready then ([.log], none)
  else if inp.stsExists && old != new then
    if !inp.specOk then ([.log], some .specError)
    else ([.log, .mutate (.stsReplicas new)], none)
  else ([], none)

/-- Shallow embedding of `on_innodbcluster_field_version`: ignore while not
ready; otherwise, if the stateful set exists and the value changed,
re-parse the spec, invoke the controller's `on_server_version_change` hook
(re-raising its error unmodified), then update the mysql image on the
stateful set and, if a router deployment exists, the router image. -/
def on_innodbcluster_field_version (E : Type) (old new : String)
    (inp : FieldInput) (hookResult : Except E Unit) :
    List TraceEv × Option (FieldErr E) :=
  if !inp.ready then ([.log], none)
  else if inp.stsExists && old != new then
    if !inp.specOk then ([.log], some .specError)
    else
      match hookResult with
      | .error e => ([.log, .hook .serverVersionChange], some (.hookError e))
      | .ok _ =>
        ([.log, .hook .serverVersionChange, .mutate .stsMysqlImage] ++
          (if inp.routerDeployExists then [.mutate .routerImage] else []),
         none)
  else ([], none)

/-- Shallow embedding of `on_innodbcluster_field_image_repository`: ignore
while not ready; otherwise, on change, re-parse the spec and update the
mysql and operator images on the stateful set and, if present, the router
image on the router deployment. -/
def on_innodbcluster_field_image_repository (old new : String)
    (inp : FieldInput) : List TraceEv × Option SpecFieldErr :=
  if !inp.ready then ([.log], none)
  else if inp.stsExists && old != new then
    if !inp.specOk then ([.log], some .specError)
    else
      ([.log, .mutate .stsMysqlImage, .mutate .stsOperatorImage] ++
        (if inp.routerDeployExists then [.mutate .routerImage] else []),
       none)
  else ([], none)

/-- Shallow embedding of `on_innodbcluster_field_image_pull_policy`: ignore
while not ready; otherwise, on change, re-parse the spec and update the
pull policy on the stateful set and, if present, on the router
deployment. -/
def on_innodbcluster_field_image_pull_policy (old new : String)
    (inp : FieldInput) : List TraceEv × Option SpecFieldErr :=
  if !inp.ready then ([.log], none)
  else if inp.stsExists && old != new then
    if !inp.specOk then ([.log], some .specError)
    else
      ([.log, .mutate .stsPullPolicy] ++
        (if inp.routerDeployExists then [.mutate .routerPullPolicy] else []),
       none)
  else ([], none)

/-- Shallow embedding of `on_innodbcluster_field_image`: ignore while not
ready; otherwise, on change, validate the spec, invoke the controller's
`on_server_image_change` hook (re-raising its error unmodified), then
update the mysql image on the stateful set. -/
def on_innodbcluster_field_image (E : Type) (old new : String)
    (inp : FieldInput) (hookResult : Except E Unit) :
    List TraceEv × Option (FieldErr E) :=
  if !inp.ready then ([.log], none)
  else if inp.stsExists && old != new then
    if !inp.specOk then ([.log], some .specError)
    else
      match hookResult with
      | .error e => ([.log, .hook .serverImageChange], some (.hookError e))
      | .ok _ => ([.log, .hook .serverImageChange, .mutate .stsMysqlImage], none)
  else ([], none)

/-- Shallow embedding of `on_innodbcluster_field_router_instances`: ignore
(log only) while the cluster has no create time; otherwise, under the
cluster mutex, validate the spec and set the router deployment size. -/
def on_innodbcluster_field_router_instances (old new : Nat)
    (inp : FieldInput) : List TraceEv × Option SpecFieldErr :=
  if inp.createTime.isNone then ([.log], none)
  else if !inp.specOk then ([.acquire, .log, .release], some .specError)
  else ([.acquire, .log, .mutate (.routerReplicas new), .release], none)

/-- Shallow embedding of `on_innodbcluster_field_router_version`: return
immediately when the value did not change; ignore (log only) while the
cluster has no create time; otherwise validate the spec and, under the
cluster mutex, update the router image if a router deployment exists. -/
def on_innodbcluster_field_router_version (old new : String)
    (inp : FieldInput) : List TraceEv × Option SpecFieldErr :=
  if old == new then ([], none)
  else if inp.createTime.isNone then ([.log], none)
  else if !inp.specOk then ([], some .specError)
  else if inp.routerDeployExists then
    ([.acquire, .mutate .routerImage, .release], none)
  else ([.acquire, .release], none)

/-- Shallow embedding of `on_innodbcluster_field_backup_schedules`: return
immediately when the value did not change; while the cluster has no create
time raise `kopf.TemporaryError` with delay 10 (the schedules are created
once the first instance is up); otherwise validate the spec and, under the
cluster mutex, update the backup schedule objects. -/
def on_innodbcluster_field_backup_schedules (old new : String)
    (inp : FieldInput) : List TraceEv × Option SpecFieldErr :=
  if old == new then ([], none)
  else if inp.createTime.isNone then ([.log], some (.temporary 10))
  else if !inp.specOk then ([.log], some .specError)
  else ([.log, .acquire, .mutate .backupSchedules, .release], none)

/-- Shallow embedding of the module-level `on_group_view_change` callback
registered with the group monitor: it constructs a `ClusterController` and
invokes its `on_group_view_change` hook, acquiring no mutex itself. -/
def on_group_view_change (members : List String) (viewIdChanged : Bool) :
    List TraceEv :=
  [.hook .groupViewChange]

/-!  Member-pod handlers. -/

/-- Pod lifecycle phase (`pod.phase`). -/
inductive PodPhase
  | Running
  | Pending
  | Succeeded
  | Failed
deriving DecidableEq, Repr

/-- The observations about a member pod (and its owning cluster, as
resolved by `pod.get_cluster()`) that the pod handlers branch on. -/
structure PodInput where
  index : Nat
  deleting : Bool
  phase : PodPhase
  hasMemberInfo : Bool
  containersReady : Bool
  configuredGate : Bool
  mysqlRestarts : Nat
  clusterFound : Bool
  clusterCreateTime : Option Nat
  clusterDeleting : Bool
deriving DecidableEq, Repr

/-- Errors escaping the pod create/delete handlers: a failed `assert`
(fatal `AssertionError`), the `AttributeError` raised by reading
`cluster.deleting` when `pod.get_cluster()` returned `None`, or a
retryable `kopf.TemporaryError` with its requested delay. -/
inductive PodHandlerErr
  | assertionFailed
  | attributeError
  | temporary (delay : Nat)
deriving DecidableEq, Repr

/-- Whether a pod-handler error is a fatal abort (assertion or attribute
failure) rather than a retryable condition. -/
def PodHandlerErr.isFatal : PodHandlerErr → Bool
  | .assertionFailed => true
  | .attributeError => true
  | .temporary _ => false

/-- Outcome of `on_pod_create`: the trace, the new ephemeral
`mysql-restarts` value recorded for the pod, and the error, if any. -/
structure PodCreateResult where
  trace : List TraceEv
  eph : Option Nat
  err : Option PodHandlerErr
deriving DecidableEq, Repr

/-- Shallow embedding of `on_pod_create`:
`assert not pod.deleting` comes first; then the `configured` readiness
gate is required (`kopf.TemporaryError` with delay 10 if absent); then the
owning cluster is resolved — the handler immediately reads
`cluster.deleting` for logging, so an unresolved cluster aborts with an
`AttributeError` (the `assert cluster` after it is never the one to fire).
Under the cluster mutex: first-pod bootstrap and group-monitor start when
this is the ordinal-0 pod of a cluster with no create time yet, then the
controller's `on_pod_created` hook, then the ephemeral restart count is
recorded. -/
def on_pod_create (p : PodInput) (eph : Option Nat) : PodCreateResult :=
  if p.deleting then
    { trace := [], eph := eph, err := some .assertionFailed }
  else if !p.configuredGate then
    { trace := [.log], eph := eph, err := some (.temporary 10) }
  else if !p.clusterFound then
    { trace := [.log], eph := eph, err := some .attributeError }
  else
    let firstPod := p.index == 0 && p.clusterCreateTime.isNone
    { trace := [.log, .log, .acquire] ++
        (if firstPod then [.mutate .firstPodBootstrap, .startMonitor] else []) ++
        [.hook .podCreated, .ephemeralSet, .release],
      eph := some p.mysqlRestarts,
      err := none }

/-- Shallow embedding of `on_pod_delete`:
`assert pod.deleting` comes first; if the owning cluster resolves, the
controller's `on_pod_deleted` hook runs under the mutex, followed by
last-pod teardown when this is the ordinal-0 pod of a deleting cluster;
if the cluster is gone, the pod's membership finalizer is removed directly
and an error is logged (orphan cleanup, no exception). -/
def on_pod_delete (p : PodInput) : List TraceEv × Option PodHandlerErr :=
  if !p.deleting then ([], some .assertionFailed)
  else if p.clusterFound then
    ([.acquire, .hook .podDeleted] ++
      (if p.index == 0 && p.clusterDeleting then [.mutate .lastPodTeardown] else []) ++
      [.release],
     none)
  else ([.removeFinalizer, .log], none)

/-- How one iteration of the `while True` retry loop of `on_pod_event`
ends: a normal return/break, or a caught `kopf.TemporaryError` asking to
sleep `d` seconds and re-attempt. -/
inductive AttemptExit
  | returned
  | retry (d : Nat)
deriving DecidableEq, Repr

/-- Outcome of one iteration of the retry loop of `on_pod_event`. -/
structure AttemptResult where
  trace : List TraceEv
  eph : Option Nat
  exit : AttemptExit
deriving DecidableEq, Repr

/-- One iteration of the body of `on_pod_event`:
events for non-Running, deleting, or membership-less pods are ignored
(debug log, return); a pod whose cluster is gone is ignored (return);
otherwise, under the cluster mutex, if all containers are ready and the
mysql container's restart count differs from the recorded ephemeral value,
the controller's `on_pod_restarted` hook fires and the ephemeral value is
updated; then `probe_status_if_needed` runs, and an `UNKNOWN` status
raises a `kopf.TemporaryError` with delay 15 (caught by the loop). -/
def podEventAttempt (p : PodInput) (probeResult : Option DiagStatus)
    (eph : Option Nat) : AttemptResult :=
  if p.phase != .Running || p.deleting || !p.hasMemberInfo then
    { trace := [.log], eph := eph, exit := .returned }
  else
    let restarted := eph != some p.mysqlRestarts
    if !p.clusterFound then
      { trace := [.log, .log], eph := eph, exit := .returned }
    else
      let br := if p.containersReady && restarted then
          ([TraceEv.hook .podRestarted, TraceEv.ephemeralSet],
           some p.mysqlRestarts)
        else ([], eph)
      { trace := [TraceEv.log, TraceEv.acquire] ++ br.1 ++
          [TraceEv.probe, TraceEv.release],
        eph := br.2,
        exit := if probeResult = some DiagStatus.UNKNOWN then .retry 15
                else .returned }

/-- The manual retry loop of `on_pod_event`, with explicit fuel (the source
loop is `while True`; `none` means the fuel ran out before the loop did).
`probe` gives the probe outcome observed at each attempt, `k` is the index
of the current attempt, `acc` the trace so far. -/
def podEventLoop (p : PodInput) (probe : Nat → Option DiagStatus) :
    Nat → Nat → Option Nat → List TraceEv →
    Option (List TraceEv × Option Nat)
  | 0, _, _, _ => none
  | fuel + 1, k, eph, acc =>
    let r := podEventAttempt p (probe k) eph
    match r.exit with
    | .returned => some (acc ++ r.trace, r.eph)
    | .retry d => podEventLoop p probe fuel (k + 1) r.eph (acc ++ r.trace ++ [.sleep d])

/-- Shallow embedding of `on_pod_event` (the whole handler, retry loop
included), with explicit fuel bounding the number of attempts. -/
def on_pod_event (fuel : Nat) (p : PodInput)
    (probe : Nat → Option DiagStatus) (eph : Option Nat) :
    Option (List TraceEv × Option Nat) :=
  podEventLoop p probe fuel 0 eph []

/-- The invocation of `on_pod_event` on these inputs terminates: some
finite number of attempts suffices for the loop to return. -/
def podEventTerminates (p : PodInput) (probe : Nat → Option DiagStatus)
    (eph : Option Nat) : Prop :=
  ∃ fuel, (on_pod_event fuel p probe eph).isSome

/-!  Helper lemmas. -/

/-- When no lookup raises a non-404 API error, the creation steps complete
and create exactly the not-found objects whose guard holds, in step
order. -/
theorem runSteps_eq_filter (lk : DepObject → Lookup)
    (h : ∀ o, lk o ≠ Lookup.apiError) :
    ∀ l : List (DepObject × Bool),
      runSteps lk l =
        (l.filterMap
          (fun oc => if lk oc.1 = Lookup.notFound ∧ oc.2 = true then some oc.1 else none),
         true) := by
  intro l
  induction l with
  | nil => rfl
  | cons oc rest ih =>
    obtain ⟨o, cond⟩ := oc
    cases hlk : lk o with
    | found => simp [runSteps, ignore_404, hlk, ih]
    | notFound => cases cond <;> simp [runSteps, ignore_404, hlk, ih]
    | apiError => exact absurd hlk (h o)

/-!  Theorems about the claims. -/

/-- Claim C8: for every cluster-create event whose spec fails parsing or
validation, the handler records an `InvalidArgument` diagnostic on the
resource and raises a retryable condition, creating no dependent object
and writing no status (the state is returned unchanged). -/
theorem c8_invalid_spec (c : ClusterInput) (lk : DepObject → Lookup)
    (s : ClusterState) (h : c.specValid = false) :
    on_innodbcluster_create c lk s =
      { diags := [.invalidArgument], created := [], state := s,
        err := some .temporaryError } := by
  simp [on_innodbcluster_create, h]

/-- Witness for C8: a concrete invalid-spec create event. -/
theorem c8_invalid_spec_witness :
    on_innodbcluster_create
      { specValid := false, spec := { instances := 3, routerInstances := 1 } }
      (fun _ => Lookup.notFound)
      { ready := false, createTime := none, objects := [],
        operatorVersion := none, status := none } =
      { diags := [.invalidArgument], created := [],
        state := { ready := false, createTime := none, objects := [],
                   operatorVersion := none, status := none },
        err := some .temporaryError } :=
  c8_invalid_spec _ _ _ rfl

/-- Claim C3: for every valid spec on a not-yet-ready cluster, the create
handler runs its nine check-if-exists-then-create steps in the fixed
source order (init config map, cluster account secret, router account
secret, cluster service, stateful set, pod-disruption-budget, router
service, router deployment, backup account secret), creating exactly the
objects not already present, with the router deployment created only when
the spec's router instance count is greater than 0.  In particular, when
no object exists yet, the created list is exactly the ordered list of the
claim. -/
theorem c3_create_order (c : ClusterInput) (lk : DepObject → Lookup)
    (s : ClusterState) (hv : c.specValid = true) (hr : s.ready = false)
    (hlk : ∀ o, lk o ≠ Lookup.apiError) :
    (on_innodbcluster_create c lk s).created =
      (createSteps c.spec).filterMap
        (fun oc =>
          if lk oc.1 = Lookup.notFound ∧ oc.2 = true then some oc.1 else none) ∧
    (on_innodbcluster_create c (fun _ => Lookup.notFound) s).created =
      ([.initconf, .clusterSecret, .routerSecret, .clusterService,
        .statefulSet, .disruptionBudget, .routerService] ++
       (if c.spec.routerInstances > 0 then [DepObject.routerDeployment] else []) ++
       [DepObject.backupSecret]) := by
  constructor
  · simp [on_innodbcluster_create, hv, hr, runSteps_eq_filter lk hlk]
  · have h2 : ∀ o : DepObject, (fun _ : DepObject => Lookup.notFound) o ≠ Lookup.apiError := by
      intro o; simp
    rcases Nat.eq_zero_or_pos c.spec.routerInstances with h | h <;>
      simp [on_innodbcluster_create, hv, hr, runSteps_eq_filter _ h2,
        createSteps, h, Nat.pos_iff_ne_zero, Nat.not_lt_of_le]

/-- Witness for C3: a concrete valid spec with one router instance on a
fresh cluster where nothing exists yet. -/
theorem c3_create_order_witness :
    (on_innodbcluster_create
        { specValid := true, spec := { instances := 3, routerInstances := 1 } }
        (fun _ => Lookup.notFound)
        { ready := false, createTime := none, objects := [],
          operatorVersion := none, status := none }).created =
      [.initconf, .clusterSecret, .routerSecret, .clusterService,
       .statefulSet, .disruptionBudget, .routerService, .routerDeployment,
       .backupSecret] := by
  have h := c3_create_order
    { specValid := true, spec := { instances := 3, routerInstances := 1 } }
    (fun _ => Lookup.notFound)
    { ready := false, createTime := none, objects := [],
      operatorVersion := none, status := none }
    rfl rfl (by intro o; simp)
  simpa using h.2

/-- Claim C4: invoking the create handler a second time on the same valid
spec, with every existence lookup answered from the state the first
invocation produced (so every created object is now found, while a
not-found lookup is treated as must-create and any non-404 lookup failure
propagates), creates no duplicate dependent object and ends in the same
final state as the first invocation: operator-version tag stamped and
status PENDING with 0 online instances.  The last conjunct shows a non-404
lookup failure propagating as a re-raised API error. -/
theorem c4_create_idempotent (inst ri : Nat) :
    (on_innodbcluster_create
        { specValid := true, spec := { instances := inst, routerInstances := ri } }
        (lookupOf (on_innodbcluster_create
            { specValid := true, spec := { instances := inst, routerInstances := ri } }
            (lookupOf { ready := false, createTime := none, objects := [],
                        operatorVersion := none, status := none })
            { ready := false, createTime := none, objects := [],
              operatorVersion := none, status := none }).state)
        (on_innodbcluster_create
            { specValid := true, spec := { instances := inst, routerInstances := ri } }
            (lookupOf { ready := false, createTime := none, objects := [],
                        operatorVersion := none, status := none })
            { ready := false, createTime := none, objects := [],
              operatorVersion := none, status := none }).state).created = [] ∧
    (on_innodbcluster_create
        { specValid := true, spec := { instances := inst, routerInstances := ri } }
        (lookupOf (on_innodbcluster_create
            { specValid := true, spec := { instances := inst, routerInstances := ri } }
            (lookupOf { ready := false, createTime := none, objects := [],
                        operatorVersion := none, status := none })
            { ready := false, createTime := none, objects := [],
              operatorVersion := none, status := none }).state)
        (on_innodbcluster_create
            { specValid := true, spec := { instances := inst, routerInstances := ri } }
            (lookupOf { ready := false, createTime := none, objects := [],
                        operatorVersion := none, status := none })
            { ready := false, createTime := none, objects := [],
              operatorVersion := none, status := none }).state).state =
      (on_innodbcluster_create
          { specValid := true, spec := { instances := inst, routerInstances := ri } }
          (lookupOf { ready := false, createTime := none, objects := [],
                      operatorVersion := none, status := none })
          { ready := false, createTime := none, objects := [],
            operatorVersion := none, status := none }).state ∧
    (on_innodbcluster_create
        { specValid := true, spec := { instances := inst, routerInstances := ri } }
        (lookupOf { ready := false, createTime := none, objects := [],
                    operatorVersion := none, status := none })
        { ready := false, createTime := none, objects := [],
          operatorVersion := none, status := none }).state.operatorVersion =
      some DEFAULT_OPERATOR_VERSION_TAG ∧
    (on_innodbcluster_create
        { specValid := true, spec := { instances := inst, routerInstances := ri } }
        (lookupOf { ready := false, createTime := none, objects := [],
                    operatorVersion := none, status := none })
        { ready := false, createTime := none, objects := [],
          operatorVersion := none, status := none }).state.status =
      some { status := .PENDING, onlineInstances := 0 } ∧
    (on_innodbcluster_create
        { specValid := true, spec := { instances := inst, routerInstances := ri } }
        (fun _ => Lookup.apiError)
        { ready := false, createTime := none, objects := [],
          operatorVersion := none, status := none }).err = some .apiError := by
  rcases Nat.eq_zero_or_pos ri with h | h <;>
    simp [on_innodbcluster_create, runSteps, createSteps, ignore_404,
      lookupOf, h, Nat.pos_iff_ne_zero, Nat.not_lt_of_le]

/-- Every cluster mutation in an `on_pod_create` trace happens under the
mutex. -/
theorem locked_on_pod_create (p : PodInput) (eph : Option Nat) :
    mutationsLocked (on_pod_create p eph).trace = true := by
  rcases p with ⟨idx, del, ph, mi, cr, cg, mr, cf, cct, cd⟩
  cases del <;> cases cg <;> cases cf <;>
    cases h : (idx == 0 && cct.isNone) <;>
      simp [on_pod_create, mutationsLocked, lockedFrom, isClusterMutation, h]

/-- Every cluster mutation in an `on_pod_delete` trace happens under the
mutex (the orphan path only removes the pod's own finalizer). -/
theorem locked_on_pod_delete (p : PodInput) :
    mutationsLocked (on_pod_delete p).1 = true := by
  rcases p with ⟨idx, del, ph, mi, cr, cg, mr, cf, cct, cd⟩
  cases del <;> cases cf <;>
    cases h : (idx == 0 && cd) <;>
      simp [on_pod_delete, mutationsLocked, lockedFrom, isClusterMutation, h]

/-- Every cluster mutation in one attempt of `on_pod_event` happens under
the mutex. -/
theorem locked_podEventAttempt (p : PodInput) (pr : Option DiagStatus)
    (eph : Option Nat) :
    mutationsLocked (podEventAttempt p pr eph).trace = true := by
  rcases p with ⟨idx, del, ph, mi, cr, cg, mr, cf, cct, cd⟩
  cases h0 : (ph != PodPhase.Running || del || !mi) <;> cases cf <;>
    cases h1 : (cr && (eph != some mr)) <;>
      simp [podEventAttempt, mutationsLocked, lockedFrom, isClusterMutation,
        h0, h1]

/-- Claim C1 (amended): within this dispatch layer, the pod-create,
pod-event and pod-delete handlers and the router.instances,
router.version and backupSchedules spec-field handlers perform every
mutation of the cluster's status or dependent objects while holding the
per-cluster mutex; but the instances, version, image, imageRepository and
imagePullPolicy spec-field handlers never acquire the mutex (even when
they mutate the stateful set or router deployment), and the
group-membership-change callback acquires no mutex itself — any locking
on those paths is left to the `ClusterController` it delegates to. -/
theorem c1_mutex_amended :
    (∀ (p : PodInput) (eph : Option Nat),
       mutationsLocked (on_pod_create p eph).trace = true) ∧
    (∀ p : PodInput, mutationsLocked (on_pod_delete p).1 = true) ∧
    (∀ (p : PodInput) (pr : Option DiagStatus) (eph : Option Nat),
       mutationsLocked (podEventAttempt p pr eph).trace = true) ∧
    (∀ (old new : Nat) (inp : FieldInput),
       mutationsLocked (on_innodbcluster_field_router_instances old new inp).1 = true) ∧
    (∀ (old new : String) (inp : FieldInput),
       mutationsLocked (on_innodbcluster_field_router_version old new inp).1 = true) ∧
    (∀ (old new : String) (inp : FieldInput),
       mutationsLocked (on_innodbcluster_field_backup_schedules old new inp).1 = true) ∧
    (∀ (old new : Nat) (inp : FieldInput),
       TraceEv.acquire ∉ (on_innodbcluster_field_instances old new inp).1) ∧
    (∀ (E : Type) (old new : String) (inp : FieldInput) (hk : Except E Unit),
       TraceEv.acquire ∉ (on_innodbcluster_field_version E old new inp hk).1) ∧
    (∀ (E : Type) (old new : String) (inp : FieldInput) (hk : Except E Unit),
       TraceEv.acquire ∉ (on_innodbcluster_field_image E old new inp hk).1) ∧
    (∀ (old new : String) (inp : FieldInput),
       TraceEv.acquire ∉ (on_innodbcluster_field_image_repository old new inp).1) ∧
    (∀ (old new : String) (inp : FieldInput),
       TraceEv.acquire ∉ (on_innodbcluster_field_image_pull_policy old new inp).1) ∧
    (∀ (members : List String) (v : Bool),
       TraceEv.acquire ∉ on_group_view_change members v) := by
  refine ⟨locked_on_pod_create, locked_on_pod_delete, locked_podEventAttempt,
    ?_, ?_, ?_, ?_, ?_, ?_, ?_, ?_, ?_⟩
  · intro old new inp
    rcases inp with ⟨rdy, ct, sts, rde, ok⟩
    cases ct <;> cases ok <;>
      simp [on_innodbcluster_field_router_instances, mutationsLocked,
        lockedFrom, isClusterMutation]
  · intro old new inp
    rcases inp with ⟨rdy, ct, sts, rde, ok⟩
    cases h : (old == new) <;> cases ct <;> cases ok <;> cases rde <;>
      simp [on_innodbcluster_field_router_version, mutationsLocked,
        lockedFrom, isClusterMutation, h]
  · intro old new inp
    rcases inp with ⟨rdy, ct, sts, rde, ok⟩
    cases h : (old == new) <;> cases ct <;> cases ok <;>
      simp [on_innodbcluster_field_backup_schedules, mutationsLocked,
        lockedFrom, isClusterMutation, h]
  · intro old new inp
    rcases inp with ⟨rdy, ct, sts, rde, ok⟩
    cases rdy <;> cases h : (sts && old != new) <;> cases ok <;>
      simp [on_innodbcluster_field_instances, h]
  · intro E old new inp hk
    rcases inp with ⟨rdy, ct, sts, rde, ok⟩
    cases rdy <;> cases h : (sts && old != new) <;> cases ok <;>
      cases hk <;> cases rde <;>
        simp [on_innodbcluster_field_version, h]
  · intro E old new inp hk
    rcases inp with ⟨rdy, ct, sts, rde, ok⟩
    cases rdy <;> cases h : (sts && old != new) <;> cases ok <;>
      cases hk <;>
        simp [on_innodbcluster_field_image, h]
  · intro old new inp
    rcases inp with ⟨rdy, ct, sts, rde, ok⟩
    cases rdy <;> cases h : (sts && old != new) <;> cases ok <;> cases rde <;>
      simp [on_innodbcluster_field_image_repository, h]
  · intro old new inp
    rcases inp with ⟨rdy, ct, sts, rde, ok⟩
    cases rdy <;> cases h : (sts && old != new) <;> cases ok <;> cases rde <;>
      simp [on_innodbcluster_field_image_pull_policy, h]
  · intro members v
    simp [on_group_view_change]

/-- Witness for C1 (amended) at concrete inputs: a pod-delete invocation
whose mutations are all under the mutex, a locked backup-schedule update,
and an instances change whose trace never acquires the mutex. -/
theorem c1_mutex_witness :
    mutationsLocked
      (on_pod_delete
          { index := 0, deleting := true, phase := .Running,
            hasMemberInfo := true, containersReady := true,
            configuredGate := true, mysqlRestarts := 0, clusterFound := true,
            clusterCreateTime := some 1, clusterDeleting := true }).1 = true ∧
    mutationsLocked
      (on_innodbcluster_field_backup_schedules "s1" "s2"
          { ready := true, createTime := some 1, stsExists := true,
            routerDeployExists := true, specOk := true }).1 = true ∧
    TraceEv.acquire ∉
      (on_innodbcluster_field_instances 3 5
          { ready := true, createTime := some 1, stsExists := true,
            routerDeployExists := true, specOk := true }).1 :=
  ⟨c1_mutex_amended.2.1 _,
   c1_mutex_amended.2.2.2.2.2.1 "s1" "s2" _,
   c1_mutex_amended.2.2.2.2.2.2.1 3 5 _⟩

/-- Counterexample to claim C1 as stated: a concrete `spec.instances`
change on a ready cluster with an existing stateful set patches the
stateful set's replica count while the per-cluster mutex is not held (the
handler's trace contains the mutation but never acquires the mutex). -/
theorem c1_mutex_counterexample :
    (on_innodbcluster_field_instances 3 5
        { ready := true, createTime := some 0, stsExists := true,
          routerDeployExists := false, specOk := true }).1 =
      [.log, .mutate (.stsReplicas 5)] ∧
    mutationsLocked
      (on_innodbcluster_field_instances 3 5
          { ready := true, createTime := some 0, stsExists := true,
            routerDeployExists := false, specOk := true }).1 = false := by
  decide

/-- Claim C2 (amended): every spec-field handler invoked while the cluster
has not yet reached its ready/created state returns without mutating any
dependent object and without raising, at most logging — except the
backupSchedules handler, which raises a retryable temporary condition with
delay 10 when the cluster has no create-time, but only when the old and
new values differ; when they are equal it too returns silently (as does
the router.version handler). -/
theorem c2_readiness_amended (inp : FieldInput) (E : Type)
    (hk : Except E Unit) (iOld iN riOld riN : Nat) (a b : String)
    (hr : inp.ready = false) (hct : inp.createTime = none) :
    on_innodbcluster_field_instances iOld iN inp = ([.log], none) ∧
    on_innodbcluster_field_version E a b inp hk = ([.log], none) ∧
    on_innodbcluster_field_image E a b inp hk = ([.log], none) ∧
    on_innodbcluster_field_image_repository a b inp = ([.log], none) ∧
    on_innodbcluster_field_image_pull_policy a b inp = ([.log], none) ∧
    on_innodbcluster_field_router_instances riOld riN inp = ([.log], none) ∧
    on_innodbcluster_field_router_version a b inp =
      (if a == b then ([], none) else ([.log], none)) ∧
    on_innodbcluster_field_backup_schedules a b inp =
      (if a == b then ([], none) else ([.log], some (.temporary 10))) := by
  refine ⟨?_, ?_, ?_, ?_, ?_, ?_, ?_, ?_⟩ <;>
    cases h : (a == b) <;>
      simp [on_innodbcluster_field_instances, on_innodbcluster_field_version,
        on_innodbcluster_field_image, on_innodbcluster_field_image_repository,
        on_innodbcluster_field_image_pull_policy,
        on_innodbcluster_field_router_instances,
        on_innodbcluster_field_router_version,
        on_innodbcluster_field_backup_schedules, hr, hct, h]

/-- Witness for C2 (amended) at concrete inputs: an unready cluster, a
changed backup-schedule value raising the delay-10 temporary condition,
and a changed instance count producing only a log line. -/
theorem c2_readiness_witness :
    on_innodbcluster_field_backup_schedules "s1" "s2"
      { ready := false, createTime := none, stsExists := true,
        routerDeployExists := true, specOk := true } =
      ([.log], some (.temporary 10)) ∧
    on_innodbcluster_field_instances 3 5
      { ready := false, createTime := none, stsExists := true,
        routerDeployExists := true, specOk := true } = ([.log], none) := by
  have h := c2_readiness_amended
    { ready := false, createTime := none, stsExists := true,
      routerDeployExists := true, specOk := true }
    Unit (Except.ok ()) 3 5 2 0 "s1" "s2" rfl rfl
  exact ⟨by simpa using h.2.2.2.2.2.2.2, h.1⟩

/-- Counterexample to claim C2 as stated: the backupSchedules handler,
invoked while the cluster has no create-time yet but with an unchanged
value, returns without raising any retryable condition. -/
theorem c2_readiness_counterexample :
    on_innodbcluster_field_backup_schedules "sched" "sched"
      { ready := false, createTime := none, stsExists := false,
        routerDeployExists := false, specOk := true } = ([], none) := by
  decide

/-- Claim C5: for every version or image spec change on a ready cluster
with an existing stateful set and old ≠ new, the controller pre-change
hook (`on_server_version_change` / `on_server_image_change`) is invoked
before any platform object is mutated (no mutation precedes the hook in
the trace, whatever the hook's outcome), and when the hook raises, the
original error `e` propagates upward unmodified and the trace contains no
mutation at all — neither the stateful set nor the router deployment is
touched. -/
theorem c5_prechange_hook (E : Type) (e : E) (old new : String)
    (inp : FieldInput) (hk : Except E Unit)
    (hr : inp.ready = true) (hs : inp.stsExists = true) (hne : old ≠ new) :
    hookPrecedes .serverVersionChange
      (on_innodbcluster_field_version E old new inp hk).1 = true ∧
    hookPrecedes .serverImageChange
      (on_innodbcluster_field_image E old new inp hk).1 = true ∧
    (inp.specOk = true →
      on_innodbcluster_field_version E old new inp (.error e) =
        ([.log, .hook .serverVersionChange], some (.hookError e)) ∧
      on_innodbcluster_field_image E old new inp (.error e) =
        ([.log, .hook .serverImageChange], some (.hookError e))) := by
  have hbe : (old == new) = false := beq_eq_false_iff_ne.mpr hne
  rcases inp with ⟨rdy, ct, sts, rde, ok⟩
  simp only at hr hs
  subst hr; subst hs
  cases ok <;> cases hk <;> cases rde <;>
    simp [on_innodbcluster_field_version, on_innodbcluster_field_image,
      hookPrecedes, isClusterMutation, hbe, hne]

/-- Witness for C5: a concrete version change whose pre-change hook fails
with the string error "boom", and the same change with a succeeding
hook. -/
theorem c5_prechange_hook_witness :
    on_innodbcluster_field_version String "8.0.24" "8.0.25"
      { ready := true, createTime := some 0, stsExists := true,
        routerDeployExists := true, specOk := true }
      (Except.error "boom") =
      ([.log, .hook .serverVersionChange], some (.hookError "boom")) ∧
    hookPrecedes .serverVersionChange
      (on_innodbcluster_field_version String "8.0.24" "8.0.25"
        { ready := true, createTime := some 0, stsExists := true,
          routerDeployExists := true, specOk := true }
        (Except.ok ())).1 = true := by
  have h := c5_prechange_hook String "boom" "8.0.24" "8.0.25"
    { ready := true, createTime := some 0, stsExists := true,
      routerDeployExists := true, specOk := true }
    (Except.ok ()) rfl rfl (by decide)
  exact ⟨(h.2.2 rfl).1, h.1⟩

/-- Claim C6: for a running, non-deleting member pod with membership info
and all containers ready, whose mysql restart counter went from the
recorded value N to N+1, one invocation of the pod-event handler fires
exactly one pod-restarted notification and updates the stored ephemeral
value to N+1; a subsequent invocation with the same counter value fires
none and leaves the stored value at N+1.  (The status probe of the
terminating attempt must not answer UNKNOWN, otherwise the handler would
keep retrying instead of returning.) -/
theorem c6_restart_detection (p : PodInput) (N : Nat)
    (probe : Nat → Option DiagStatus)
    (hph : p.phase = .Running) (hdel : p.deleting = false)
    (hmi : p.hasMemberInfo = true) (hcr : p.containersReady = true)
    (hcf : p.clusterFound = true) (hr : p.mysqlRestarts = N + 1)
    (hpr : probe 0 ≠ some DiagStatus.UNKNOWN) :
    on_pod_event 1 p probe (some N) =
      some ([.log, .acquire, .hook .podRestarted, .ephemeralSet, .probe,
             .release], some (N + 1)) ∧
    countHook .podRestarted
      [.log, .acquire, .hook .podRestarted, .ephemeralSet, .probe,
       .release] = 1 ∧
    on_pod_event 1 p probe (some (N + 1)) =
      some ([.log, .acquire, .probe, .release], some (N + 1)) ∧
    countHook .podRestarted [.log, .acquire, .probe, .release] = 0 := by
  have hne : (some N != some (N + 1) : Bool) = true := by
    simp [bne_iff_ne, Nat.ne_of_lt (Nat.lt_succ_self N)]
  refine ⟨?_, by decide, ?_, by decide⟩ <;>
    rcases p with ⟨idx, del, ph, mi, cr, cg, mr, cf, cct, cd⟩ <;>
    simp only at hph hdel hmi hcr hcf hr <;>
    subst hph <;> subst hdel <;> subst hmi <;> subst hcr <;> subst hcf <;>
    subst hr <;>
    simp [on_pod_event, podEventLoop, podEventAttempt, hne, hpr]

/-- Witness for C6: a concrete ready pod whose restart counter went from
0 to 1 with an ONLINE probe. -/
theorem c6_restart_detection_witness :
    on_pod_event 1
      { index := 0, deleting := false, phase := .Running,
        hasMemberInfo := true, containersReady := true,
        configuredGate := true, mysqlRestarts := 1, clusterFound := true,
        clusterCreateTime := some 1, clusterDeleting := false }
      (fun _ => some DiagStatus.ONLINE) (some 0) =
      some ([.log, .acquire, .hook .podRestarted, .ephemeralSet, .probe,
             .release], some 1) ∧
    on_pod_event 1
      { index := 0, deleting := false, phase := .Running,
        hasMemberInfo := true, containersReady := true,
        configuredGate := true, mysqlRestarts := 1, clusterFound := true,
        clusterCreateTime := some 1, clusterDeleting := false }
      (fun _ => some DiagStatus.ONLINE) (some 1) =
      some ([.log, .acquire, .probe, .release], some 1) := by
  have h := c6_restart_detection
    { index := 0, deleting := false, phase := .Running,
      hasMemberInfo := true, containersReady := true,
      configuredGate := true, mysqlRestarts := 1, clusterFound := true,
      clusterCreateTime := some 1, clusterDeleting := false }
    0 (fun _ => some DiagStatus.ONLINE)
    rfl rfl rfl rfl rfl rfl (by decide)
  exact ⟨h.1, h.2.2.1⟩

/-- For a pod that passes the event filter and whose cluster resolves, an
attempt whose probe answers UNKNOWN always exits with a 15-second retry. -/
theorem podEventAttempt_unknown_retry (p : PodInput) (eph : Option Nat)
    (hph : p.phase = .Running) (hdel : p.deleting = false)
    (hmi : p.hasMemberInfo = true) (hcf : p.clusterFound = true) :
    (podEventAttempt p (some DiagStatus.UNKNOWN) eph).exit = .retry 15 := by
  rcases p with ⟨idx, del, ph, mi, cr, cg, mr, cf, cct, cd⟩
  simp only at hph hdel hmi hcf
  subst hph; subst hdel; subst hmi; subst hcf
  cases h1 : (cr && (eph != some mr)) <;> simp [podEventAttempt, h1]

/-- If the probe answers UNKNOWN at every attempt (for a pod that passes
the event filter and whose cluster resolves), the retry loop never
returns, whatever the fuel. -/
theorem podEventLoop_unknown_none (p : PodInput)
    (probe : Nat → Option DiagStatus)
    (hph : p.phase = .Running) (hdel : p.deleting = false)
    (hmi : p.hasMemberInfo = true) (hcf : p.clusterFound = true)
    (hprobe : ∀ k, probe k = some DiagStatus.UNKNOWN) :
    ∀ (fuel k : Nat) (eph : Option Nat) (acc : List TraceEv),
      podEventLoop p probe fuel k eph acc = none := by
  intro fuel
  induction fuel with
  | zero => intro k eph acc; rfl
  | succ n ih =>
    intro k eph acc
    have hexit := podEventAttempt_unknown_retry p eph hph hdel hmi hcf
    simp only [podEventLoop, hprobe k, hexit]
    exact ih (k + 1) _ _

/-- Counterexample to claim C7 as stated: the retry loop is not bounded.
For a concrete running, configured, member pod whose cluster's status
probe answers UNKNOWN at every attempt, no amount of fuel makes the
handler return: the invocation never terminates. -/
theorem c7_retry_counterexample :
    ¬ podEventTerminates
        { index := 0, deleting := false, phase := .Running,
          hasMemberInfo := true, containersReady := true,
          configuredGate := true, mysqlRestarts := 0, clusterFound := true,
          clusterCreateTime := some 1, clusterDeleting := false }
        (fun _ => some DiagStatus.UNKNOWN) (some 0) := by
  rintro ⟨fuel, hf⟩
  rw [on_pod_event,
    podEventLoop_unknown_none _ _ rfl rfl rfl rfl (fun _ => rfl)] at hf
  simp at hf

/-- Claim C7 (amended): whenever an attempt inside the pod-event handler
raises a retryable temporary condition (such as the 15-time-unit condition
raised when the status probe yields UNKNOWN), the handler itself sleeps
for the condition's requested delay and re-attempts within the same
invocation; but the loop is not bounded: it returns only when some attempt
completes, and for a pod whose status probe yields UNKNOWN at every
attempt it never terminates. -/
theorem c7_retry_amended :
    (∀ (p : PodInput) (probe : Nat → Option DiagStatus) (eph : Option Nat)
       (fuel d : Nat),
       (podEventAttempt p (probe 0) eph).exit = .retry d →
       on_pod_event (fuel + 1) p probe eph =
         podEventLoop p probe fuel 1 (podEventAttempt p (probe 0) eph).eph
           ((podEventAttempt p (probe 0) eph).trace ++ [.sleep d])) ∧
    (∀ (p : PodInput) (probe : Nat → Option DiagStatus) (eph : Option Nat),
       p.phase = .Running → p.deleting = false → p.hasMemberInfo = true →
       p.clusterFound = true →
       (∀ k, probe k = some DiagStatus.UNKNOWN) →
       ¬ podEventTerminates p probe eph) := by
  constructor
  · intro p probe eph fuel d hexit
    simp only [on_pod_event, podEventLoop, hexit]
    simp
  · intro p probe eph hph hdel hmi hcf hprobe ⟨fuel, hf⟩
    rw [on_pod_event,
      podEventLoop_unknown_none p probe hph hdel hmi hcf hprobe] at hf
    simp at hf

/-- Witness for C7 (amended): a concrete pod whose first attempt retries
after 15 seconds (sleep recorded in the trace) and which, under an
always-UNKNOWN probe, never terminates. -/
theorem c7_retry_witness :
    on_pod_event 2
      { index := 0, deleting := false, phase := .Running,
        hasMemberInfo := true, containersReady := true,
        configuredGate := true, mysqlRestarts := 1, clusterFound := true,
        clusterCreateTime := some 1, clusterDeleting := false }
      (fun _ => some DiagStatus.UNKNOWN) (some 0) =
      podEventLoop
        { index := 0, deleting := false, phase := .Running,
          hasMemberInfo := true, containersReady := true,
          configuredGate := true, mysqlRestarts := 1, clusterFound := true,
          clusterCreateTime := some 1, clusterDeleting := false }
        (fun _ => some DiagStatus.UNKNOWN) 1 1 (some 1)
        ([.log, .acquire, .hook .podRestarted, .ephemeralSet, .probe,
          .release] ++ [.sleep 15]) ∧
    ¬ podEventTerminates
        { index := 1, deleting := false, phase := .Running,
          hasMemberInfo := true, containersReady := false,
          configuredGate := true, mysqlRestarts := 2, clusterFound := true,
          clusterCreateTime := some 1, clusterDeleting := false }
        (fun _ => some DiagStatus.UNKNOWN) none := by
  constructor
  · have h := c7_retry_amended.1
      { index := 0, deleting := false, phase := .Running,
        hasMemberInfo := true, containersReady := true,
        configuredGate := true, mysqlRestarts := 1, clusterFound := true,
        clusterCreateTime := some 1, clusterDeleting := false }
      (fun _ => some DiagStatus.UNKNOWN) (some 0) 1 15 (by decide)
    simpa using h
  · exact c7_retry_amended.2 _ _ _ rfl rfl rfl rfl (fun _ => rfl)

/-- Counterexample to claim C9 as stated: a pod-create event for a pod
whose owning cluster cannot be found but whose `configured` readiness gate
is not yet set does not abort fatally — the gate check comes first and
raises a retryable temporary condition with delay 10. -/
theorem c9_pod_create_counterexample :
    (on_pod_create
        { index := 1, deleting := false, phase := .Pending,
          hasMemberInfo := false, containersReady := false,
          configuredGate := false, mysqlRestarts := 0, clusterFound := false,
          clusterCreateTime := none, clusterDeleting := false }
        none).err = some (.temporary 10) ∧
    PodHandlerErr.isFatal (.temporary 10) = false := by
  decide

/-- Claim C9 (amended): the pod-create handler aborts fatally (assertion
failure) on any deletion-marked pod, with no retryable condition and no
orphan cleanup; a pod whose owning cluster cannot be found aborts fatally
(attribute failure) only when its `configured` readiness gate is set —
when the gate is unset, the handler raises the retryable delay-10
condition before ever resolving the cluster.  The delete handler, by
contrast, removes the finalizer of an orphaned pod and returns without
error. -/
theorem c9_pod_create_amended :
    (∀ (p : PodInput) (eph : Option Nat), p.deleting = true →
       on_pod_create p eph =
         { trace := [], eph := eph, err := some .assertionFailed }) ∧
    (∀ (p : PodInput) (eph : Option Nat), p.deleting = false →
       p.configuredGate = true → p.clusterFound = false →
       on_pod_create p eph =
         { trace := [.log], eph := eph, err := some .attributeError }) ∧
    (∀ (p : PodInput) (eph : Option Nat), p.deleting = false →
       p.configuredGate = false →
       on_pod_create p eph =
         { trace := [.log], eph := eph, err := some (.temporary 10) }) ∧
    (∀ p : PodInput, p.deleting = true → p.clusterFound = false →
       on_pod_delete p = ([.removeFinalizer, .log], none)) ∧
    PodHandlerErr.isFatal .assertionFailed = true ∧
    PodHandlerErr.isFatal .attributeError = true ∧
    PodHandlerErr.isFatal (.temporary 10) = false := by
  refine ⟨?_, ?_, ?_, ?_, rfl, rfl, rfl⟩ <;>
    intro p <;>
    rcases p with ⟨idx, del, ph, mi, cr, cg, mr, cf, cct, cd⟩
  · intro eph hdel
    simp only at hdel; subst hdel
    simp [on_pod_create]
  · intro eph hdel hcg hcf
    simp only at hdel hcg hcf; subst hdel; subst hcg; subst hcf
    simp [on_pod_create]
  · intro eph hdel hcg
    simp only at hdel hcg; subst hdel; subst hcg
    simp [on_pod_create]
  · intro hdel hcf
    simp only at hdel hcf; subst hdel; subst hcf
    simp [on_pod_delete]

/-- Witness for C9 (amended): concrete instances of all four behaviours. -/
theorem c9_pod_create_witness :
    on_pod_create
      { index := 0, deleting := true, phase := .Running,
        hasMemberInfo := true, containersReady := true,
        configuredGate := true, mysqlRestarts := 0, clusterFound := true,
        clusterCreateTime := some 1, clusterDeleting := false }
      none = { trace := [], eph := none, err := some .assertionFailed } ∧
    on_pod_create
      { index := 0, deleting := false, phase := .Running,
        hasMemberInfo := true, containersReady := true,
        configuredGate := true, mysqlRestarts := 0, clusterFound := false,
        clusterCreateTime := none, clusterDeleting := false }
      none = { trace := [.log], eph := none, err := some .attributeError } ∧
    on_pod_delete
      { index := 2, deleting := true, phase := .Running,
        hasMemberInfo := true, containersReady := true,
        configuredGate := true, mysqlRestarts := 0, clusterFound := false,
        clusterCreateTime := none, clusterDeleting := false } =
      ([.removeFinalizer, .log], none) := by
  refine ⟨c9_pod_create_amended.1 _ none rfl,
    c9_pod_create_amended.2.1 _ none rfl rfl rfl,
    c9_pod_create_amended.2.2.2.1 _ rfl rfl⟩

/-- Claim C10: the pod-event handler updates the stored ephemeral restart
count only together with firing exactly one pod-restarted notification
(first conjunct: per attempt, either the stored value is unchanged or it
was set to the pod's current counter with exactly one notification); when
some container is not ready the stored value stays stale and no
notification fires (second conjunct); a changed counter observed while
containers are not ready is deferred, not dropped — a later event with
containers ready fires the notification and updates the stored value
(third conjunct); and pod creation establishes the baseline, recording the
pod's current counter (fourth conjunct). -/
theorem c10_ephemeral_invariant :
    (∀ (p : PodInput) (pr : Option DiagStatus) (eph : Option Nat),
       (podEventAttempt p pr eph).eph = eph ∨
       ((podEventAttempt p pr eph).eph = some p.mysqlRestarts ∧
        countHook .podRestarted (podEventAttempt p pr eph).trace = 1)) ∧
    (∀ (p : PodInput) (pr : Option DiagStatus) (eph : Option Nat),
       p.containersReady = false →
       (podEventAttempt p pr eph).eph = eph ∧
       countHook .podRestarted (podEventAttempt p pr eph).trace = 0) ∧
    (∀ (p : PodInput) (pr pr2 : Option DiagStatus) (N : Nat),
       p.phase = .Running → p.deleting = false → p.hasMemberInfo = true →
       p.clusterFound = true → p.containersReady = false →
       N ≠ p.mysqlRestarts →
       (podEventAttempt p pr (some N)).eph = some N ∧
       countHook .podRestarted (podEventAttempt p pr (some N)).trace = 0 ∧
       (podEventAttempt { p with containersReady := true } pr2
           (some N)).eph = some p.mysqlRestarts ∧
       countHook .podRestarted
         (podEventAttempt { p with containersReady := true } pr2
             (some N)).trace = 1) ∧
    (∀ (p : PodInput) (eph : Option Nat),
       (on_pod_create p eph).err = none →
       (on_pod_create p eph).eph = some p.mysqlRestarts) := by
  refine ⟨?_, ?_, ?_, ?_⟩
  · intro p pr eph
    rcases p with ⟨idx, del, ph, mi, cr, cg, mr, cf, cct, cd⟩
    cases h0 : (ph != PodPhase.Running || del || !mi) <;> cases cf <;>
      cases h1 : (cr && (eph != some mr)) <;>
        simp [podEventAttempt, countHook, h0, h1]
  · intro p pr eph hcr
    rcases p with ⟨idx, del, ph, mi, cr, cg, mr, cf, cct, cd⟩
    simp only at hcr; subst hcr
    cases h0 : (ph != PodPhase.Running || del || !mi) <;> cases cf <;>
      simp [podEventAttempt, countHook, h0]
  · intro p pr pr2 N hph hdel hmi hcf hcr hne
    rcases p with ⟨idx, del, ph, mi, cr, cg, mr, cf, cct, cd⟩
    simp only at hph hdel hmi hcf hcr hne
    subst hph; subst hdel; subst hmi; subst hcf; subst hcr
    have hb : (some N != some mr : Bool) = true := by
      simp [bne_iff_ne, hne]
    simp [podEventAttempt, countHook, hb]
  · intro p eph
    rcases p with ⟨idx, del, ph, mi, cr, cg, mr, cf, cct, cd⟩
    cases del <;> cases cg <;> cases cf <;>
      simp [on_pod_create]

/-- Witness for C10: the deferred-notification scenario at concrete
inputs — a restart observed with a not-ready container leaves the stored
value stale and fires nothing; the later ready event fires once and
updates it; and pod creation records the current counter. -/
theorem c10_ephemeral_invariant_witness :
    (podEventAttempt
        { index := 0, deleting := false, phase := .Running,
          hasMemberInfo := true, containersReady := false,
          configuredGate := true, mysqlRestarts := 3, clusterFound := true,
          clusterCreateTime := some 1, clusterDeleting := false }
        (some DiagStatus.ONLINE) (some 2)).eph = some 2 ∧
    countHook .podRestarted
      (podEventAttempt
          { index := 0, deleting := false, phase := .Running,
            hasMemberInfo := true, containersReady := false,
            configuredGate := true, mysqlRestarts := 3, clusterFound := true,
            clusterCreateTime := some 1, clusterDeleting := false }
          (some DiagStatus.ONLINE) (some 2)).trace = 0 ∧
    (podEventAttempt
        { index := 0, deleting := false, phase := .Running,
          hasMemberInfo := true, containersReady := true,
          configuredGate := true, mysqlRestarts := 3, clusterFound := true,
          clusterCreateTime := some 1, clusterDeleting := false }
        (some DiagStatus.ONLINE) (some 2)).eph = some 3 ∧
    countHook .podRestarted
      (podEventAttempt
          { index := 0, deleting := false, phase := .Running,
            hasMemberInfo := true, containersReady := true,
            configuredGate := true, mysqlRestarts := 3, clusterFound := true,
            clusterCreateTime := some 1, clusterDeleting := false }
          (some DiagStatus.ONLINE) (some 2)).trace = 1 ∧
    (on_pod_create
        { index := 0, deleting := false, phase := .Running,
          hasMemberInfo := true, containersReady := true,
          configuredGate := true, mysqlRestarts := 3, clusterFound := true,
          clusterCreateTime := some 1, clusterDeleting := false }
        none).eph = some 3 := by
  have h := c10_ephemeral_invariant.2.2.1
    { index := 0, deleting := false, phase := .Running,
      hasMemberInfo := true, containersReady := false,
      configuredGate := true, mysqlRestarts := 3, clusterFound := true,
      clusterCreateTime := some 1, clusterDeleting := false }
    (some DiagStatus.ONLINE) (some DiagStatus.ONLINE) 2
    rfl rfl rfl rfl rfl (by decide)
  have h4 := c10_ephemeral_invariant.2.2.2
    { index := 0, deleting := false, phase := .Running,
      hasMemberInfo := true, containersReady := true,
      configuredGate := true, mysqlRestarts := 3, clusterFound := true,
      clusterCreateTime := some 1, clusterDeleting := false }
    none rfl
  exact ⟨h.1, h.2.1, h.2.2.1, h.2.2.2, h4⟩

end MySQLOperator
